import Mathlib

/-!
Shallow embedding of the ESP32 ambient-lighting firmware core
(`firmware/main/state.cpp`, `firmware/main/modes.cpp`, constants from
`firmware/main/config.h`).

Machine integers (`uint8_t`, `unsigned long`) are modelled as `ℕ` with
explicit `% 256` / `% 2^32` where the C code wraps; `float` values are
modelled as `ℚ` (exact arithmetic on the same formulas).  The process-wide
mutable state (the globals `targetState`, `renderState` and the
file-static sequencing variables of `state.cpp`) is gathered into one
explicit `GlobalState` record that every operation threads.
-/

namespace Ambient

/-! ### Configuration constants, from `config.h` -/

def NUM_LEDS : ℕ := 600
def BRIGHTNESS_CAP : ℕ := 255
def MOTION_SPEED_CAP : ℕ := 255
def MAX_R : ℕ := 255
def MAX_G : ℕ := 255
def MAX_B : ℕ := 255
def FALLBACK_MODE : ℕ := 4
def FALLBACK_R : ℕ := 255
def FALLBACK_G : ℕ := 180
def FALLBACK_B : ℕ := 80
def FALLBACK_BRIGHTNESS : ℕ := 255

/-- `config.h` sets `PACKET_BRIGHTNESS_ZERO_IS_NOHINT` to 1 by default. -/
def PACKET_BRIGHTNESS_ZERO_IS_NOHINT : Bool := true

/-! ### Data model, from `state.h`

All packet and target fields are `uint8_t` in the C code; we model them as
`ℕ` and, where a theorem needs the wire range, state `≤ 255` explicitly. -/

structure Packet where
  mode : ℕ
  r : ℕ
  g : ℕ
  b : ℕ
  brightness : ℕ
  motion_energy : ℕ
  motion_speed : ℕ
  motion_direction : ℕ
  frame_id : ℕ
  deriving DecidableEq, Repr

structure TargetState where
  mode : ℕ
  r : ℕ
  g : ℕ
  b : ℕ
  brightness : ℕ
  motion_energy : ℕ
  motion_speed : ℕ
  motion_direction : ℕ
  deriving DecidableEq, Repr

structure RenderColor where
  r : ℚ
  g : ℚ
  b : ℚ
  deriving DecidableEq, Repr

structure RenderState where
  render_color : RenderColor
  render_brightness : ℚ
  render_motion_energy : ℚ
  render_phase : ℚ
  deriving DecidableEq, Repr

/-- The file-static sequencing and hysteresis variables of `state.cpp`
(lines 12-18): `haveFrame`, `lastFrameId`, `lastFrameMs`,
`stableDirection`, `dirStableCount`. -/
structure SeqState where
  haveFrame : Bool
  lastFrameId : ℕ
  lastFrameMs : ℕ
  stableDirection : ℕ
  dirStableCount : ℕ
  deriving DecidableEq, Repr

structure GlobalState where
  target : TargetState
  render : RenderState
  seq : SeqState
  deriving DecidableEq, Repr

/-! ### `state.cpp` operations -/

/-- C++ static initialization of the file-static variables of `state.cpp`:
`haveFrame = false`, `lastFrameId = 0`, `lastFrameMs = 0`,
`stableDirection = 128`, `dirStableCount = 0`. -/
def initSeqState : SeqState :=
  { haveFrame := false
    lastFrameId := 0
    lastFrameMs := 0
    stableDirection := 128
    dirStableCount := 0 }

/-- `initState()` (state.cpp lines 20-36) together with the static
initialization of the sequencing variables. -/
def initState : GlobalState :=
  { target :=
      { mode := FALLBACK_MODE
        r := FALLBACK_R
        g := FALLBACK_G
        b := FALLBACK_B
        brightness := FALLBACK_BRIGHTNESS
        motion_energy := 0
        motion_speed := 0
        motion_direction := 128 }
    render :=
      { render_color := ⟨(FALLBACK_R : ℚ), (FALLBACK_G : ℚ), (FALLBACK_B : ℚ)⟩
        render_brightness := (FALLBACK_BRIGHTNESS : ℚ)
        render_motion_energy := 0
        render_phase := 0 }
    seq := initSeqState }

/-- Direction-hysteresis step, `updateStateFromPacket` lines 41-51.
Input: current `stableDirection`, `dirStableCount` and the packet's
`motion_direction` `d`; output: the new `(stableDirection, dirStableCount)`.
The counter is a `uint8_t`, hence the `% 256` on the increment. -/
def hysteresisStep (stableDirection dirStableCount d : ℕ) : ℕ × ℕ :=
  if d = 0 then
    (stableDirection, dirStableCount)
  else if d ≠ stableDirection then
    let c := (dirStableCount + 1) % 256
    if 3 ≤ c then (d, 0) else (stableDirection, c)
  else
    (stableDirection, 0)

/-- Frame sequencing flags, `updateStateFromPacket` lines 54-66.
Returns `(resetPhase, skipPhaseAdvance)`.  `expected` is
`uint8_t(prevFrame + 1)` and `gap` is `uint8_t(frame_id - prevFrame)`. -/
def frameSeqFlags (seq : SeqState) (frame_id : ℕ) : Bool × Bool :=
  if seq.haveFrame then
    if frame_id ≠ (seq.lastFrameId + 1) % 256 then
      (true, decide (5 < (frame_id + 256 - seq.lastFrameId) % 256))
    else (false, false)
  else (false, false)

/-- Elapsed time since the last accepted command, `updateStateFromPacket`
line 68: `haveFrame ? (nowMs - lastFrameMs) : 40UL`.  `unsigned long` is
32-bit on the target, so the subtraction wraps modulo `2^32`. -/
def elapsedMs (seq : SeqState) (nowMs : ℕ) : ℕ :=
  if seq.haveFrame then (nowMs + 2 ^ 32 - seq.lastFrameMs) % 2 ^ 32 else 40

/-- Interval clamping, `updateStateFromPacket` lines 68-71.  Takes the
frame-sequencing flags and returns `(dt_ms, resetPhase)` as left after
line 71. -/
def dtClamp (seq : SeqState) (nowMs : ℕ) (resetPhase skipPhaseAdvance : Bool) :
    ℕ × Bool :=
  let dt0 := elapsedMs seq nowMs
  let dt1 := if dt0 < 5 then 5 else dt0
  let rd : ℕ × Bool := if 120 < dt1 then (0, true) else (dt1, resetPhase)
  (if skipPhaseAdvance then 0 else rd.1, rd.2)

/-- Brightness update policy, `updateStateFromPacket` lines 83-91.
`nohint` is the `PACKET_BRIGHTNESS_ZERO_IS_NOHINT` configuration flag. -/
def brightnessPolicy (nohint : Bool) (prev : ℕ) (packet : Packet) : ℕ :=
  if nohint then
    if packet.brightness = 0 ∧ packet.mode ≠ 5 then prev
    else min packet.brightness BRIGHTNESS_CAP
  else min packet.brightness BRIGHTNESS_CAP

/-- `updateStateFromPacket(packet, nowMs)` (state.cpp lines 38-119).
The `FORCE_MAX_BRIGHTNESS` block (lines 98-102) is not compiled: the macro
is undefined, so the preprocessor condition is false. -/
def updateStateFromPacket (s : GlobalState) (packet : Packet) (nowMs : ℕ) :
    GlobalState :=
  let hd := hysteresisStep s.seq.stableDirection s.seq.dirStableCount
      packet.motion_direction
  let fl := frameSeqFlags s.seq packet.frame_id
  let dtr := dtClamp s.seq nowMs fl.1 fl.2
  let dt_ms := dtr.1
  let resetPhase := dtr.2
  let tgt : TargetState :=
    { mode := packet.mode
      r := min packet.r MAX_R
      g := min packet.g MAX_G
      b := min packet.b MAX_B
      brightness := brightnessPolicy PACKET_BRIGHTNESS_ZERO_IS_NOHINT
        s.target.brightness packet
      motion_energy := packet.motion_energy
      motion_speed := min packet.motion_speed MOTION_SPEED_CAP
      motion_direction := hd.1 }
  let motion_alpha : ℚ := min 1 ((dt_ms : ℚ) / 10)
  let e0 : ℚ := s.render.render_motion_energy +
    motion_alpha * ((tgt.motion_energy : ℚ) - s.render.render_motion_energy)
  let e1 : ℚ := if e0 < 1 ∧ 0 < tgt.motion_energy then 1 else e0
  { target := tgt
    render :=
      { render_color := ⟨(tgt.r : ℚ), (tgt.g : ℚ), (tgt.b : ℚ)⟩
        render_brightness := (tgt.brightness : ℚ)
        render_motion_energy := e1
        render_phase := if resetPhase then 0 else s.render.render_phase }
    seq :=
      { haveFrame := true
        lastFrameId := packet.frame_id
        lastFrameMs := nowMs
        stableDirection := hd.1
        dirStableCount := hd.2 } }

/-- `snapRenderStateToTarget(resetPhase)` (state.cpp lines 121-128). -/
def snapRenderStateToTarget (s : GlobalState) (resetPhase : Bool) : GlobalState :=
  { s with
    render :=
      { render_color := ⟨(s.target.r : ℚ), (s.target.g : ℚ), (s.target.b : ℚ)⟩
        render_brightness := (s.target.brightness : ℚ)
        render_motion_energy := (s.target.motion_energy : ℚ)
        render_phase := if resetPhase then 0 else s.render.render_phase } }

/-- Direction scalar of `advanceRenderPhase` (state.cpp lines 138-145). -/
def dirScalar (d : ℕ) : ℚ :=
  if d = 0 then 0
  else if d < 96 then -1
  else if 160 < d then 1
  else 0

/-- Clamping of `packet_dt_s` in `advanceRenderPhase`
(state.cpp lines 134-135): floor `0.01`, ceiling `0.12`. -/
def clampInterval (p : ℚ) : ℚ :=
  let p1 := if p < 1 / 100 then 1 / 100 else p
  if 12 / 100 < p1 then 12 / 100 else p1

/-- `advanceRenderPhase(dt_s, packet_dt_s)` (state.cpp lines 130-150). -/
def advanceRenderPhase (s : GlobalState) (dt_s packet_dt_s : ℚ) : GlobalState :=
  if dt_s ≤ 0 then s
  else
    let p := clampInterval packet_dt_s
    let dir := dirScalar s.target.motion_direction
    let speed : ℚ := (s.target.motion_speed : ℚ) / 100
    let step := speed * dir * (dt_s / p)
    { s with
      render := { s.render with render_phase := s.render.render_phase + step } }

/-! ### `modes.cpp`: mode 1 (sine wave)

`renderMode1` calls the C math-library sine; we model the effect as a
function taking the sine function `sinf : ℚ → ℚ` as an explicit parameter,
so every structural property of the pixel formula is independent of the
transcendental implementation. -/

/-- `fl::clamp(v, lo, hi)`: clamp `v` into `[lo, hi]`. -/
def clampQ (v lo hi : ℚ) : ℚ := min hi (max lo v)

/-- Per-pixel color of `renderMode1` (modes.cpp lines 11-19): for pixel `i`,
`x = (i - NUM_LEDS/2) / 80.0f` (integer subtraction, `NUM_LEDS/2 = 300`),
`mod = 0.18f * sinf(x + phase)`, and each channel is
`clamp(channel * (1.12f + mod), 0, MAX)`. -/
def renderMode1Pixel (rs : RenderState) (sinf : ℚ → ℚ) (i : ℕ) : RenderColor :=
  let x : ℚ := ((i : ℚ) - ((NUM_LEDS / 2 : ℕ) : ℚ)) / 80
  let m : ℚ := 18 / 100 * sinf (x + rs.render_phase)
  ⟨clampQ (rs.render_color.r * (112 / 100 + m)) 0 (MAX_R : ℚ),
   clampQ (rs.render_color.g * (112 / 100 + m)) 0 (MAX_G : ℚ),
   clampQ (rs.render_color.b * (112 / 100 + m)) 0 (MAX_B : ℚ)⟩

/-- Output brightness of `renderMode1` (modes.cpp lines 21-26).
Modelled from the spec: the build flags defining `STRICT_PACKET_BRIGHTNESS`
(and the gain constant `BRIGHTNESS_GAIN` used by the non-strict branch) are
not among the repository's source files; the specification states that in
mode 1 the output brightness is "set directly from render_state brightness"
(no gain, no floor), i.e. the strict variant, so the
`#if !STRICT_PACKET_BRIGHTNESS` gain/floor block is excluded and only the
final conversion `(uint8_t)std::min(255.0f, std::max(0.0f, b))` remains. -/
def renderMode1Brightness (rs : RenderState) : ℚ :=
  min 255 (max 0 rs.render_brightness)

/-! ### Unfolding lemmas for `updateStateFromPacket` -/

lemma update_seq (s : GlobalState) (p : Packet) (nowMs : ℕ) :
    (updateStateFromPacket s p nowMs).seq =
      { haveFrame := true
        lastFrameId := p.frame_id
        lastFrameMs := nowMs
        stableDirection :=
          (hysteresisStep s.seq.stableDirection s.seq.dirStableCount
            p.motion_direction).1
        dirStableCount :=
          (hysteresisStep s.seq.stableDirection s.seq.dirStableCount
            p.motion_direction).2 } := rfl

lemma update_target (s : GlobalState) (p : Packet) (nowMs : ℕ) :
    (updateStateFromPacket s p nowMs).target =
      { mode := p.mode
        r := min p.r MAX_R
        g := min p.g MAX_G
        b := min p.b MAX_B
        brightness := brightnessPolicy PACKET_BRIGHTNESS_ZERO_IS_NOHINT
          s.target.brightness p
        motion_energy := p.motion_energy
        motion_speed := min p.motion_speed MOTION_SPEED_CAP
        motion_direction :=
          (hysteresisStep s.seq.stableDirection s.seq.dirStableCount
            p.motion_direction).1 } := rfl

lemma update_render_color (s : GlobalState) (p : Packet) (nowMs : ℕ) :
    (updateStateFromPacket s p nowMs).render.render_color =
      ⟨((min p.r MAX_R : ℕ) : ℚ), ((min p.g MAX_G : ℕ) : ℚ),
       ((min p.b MAX_B : ℕ) : ℚ)⟩ := rfl

lemma update_render_brightness (s : GlobalState) (p : Packet) (nowMs : ℕ) :
    (updateStateFromPacket s p nowMs).render.render_brightness =
      ((brightnessPolicy PACKET_BRIGHTNESS_ZERO_IS_NOHINT
          s.target.brightness p : ℕ) : ℚ) := rfl

lemma update_render_phase (s : GlobalState) (p : Packet) (nowMs : ℕ) :
    (updateStateFromPacket s p nowMs).render.render_phase =
      if (dtClamp s.seq nowMs (frameSeqFlags s.seq p.frame_id).1
            (frameSeqFlags s.seq p.frame_id).2).2 then 0
      else s.render.render_phase := rfl

lemma update_render_motion_energy (s : GlobalState) (p : Packet) (nowMs : ℕ) :
    (updateStateFromPacket s p nowMs).render.render_motion_energy =
      if s.render.render_motion_energy +
          min 1 (((dtClamp s.seq nowMs (frameSeqFlags s.seq p.frame_id).1
              (frameSeqFlags s.seq p.frame_id).2).1 : ℚ) / 10) *
            ((p.motion_energy : ℚ) - s.render.render_motion_energy) < 1
        ∧ 0 < p.motion_energy then 1
      else s.render.render_motion_energy +
          min 1 (((dtClamp s.seq nowMs (frameSeqFlags s.seq p.frame_id).1
              (frameSeqFlags s.seq p.frame_id).2).1 : ℚ) / 10) *
            ((p.motion_energy : ℚ) - s.render.render_motion_energy) := rfl

/-! ### Helper lemmas about the timing pipeline -/

lemma dtClamp_skip_fst (seq : SeqState) (nowMs : ℕ) (r : Bool) :
    (dtClamp seq nowMs r true).1 = 0 := by
  simp [dtClamp]

lemma dtClamp_reset_snd (seq : SeqState) (nowMs : ℕ) (sk : Bool) :
    (dtClamp seq nowMs true sk).2 = true := by
  simp only [dtClamp]
  split <;> split <;> rfl

lemma elapsed_wrap_eq (t1 t2 : ℕ) (h : t1 ≤ t2) (ht : t2 < 2 ^ 32) :
    (t2 + 2 ^ 32 - t1) % 2 ^ 32 = t2 - t1 := by
  omega

lemma dtClamp_eq (seq : SeqState) (nowMs : ℕ) (r : Bool) :
    dtClamp seq nowMs r false =
      (if 120 < max 5 (elapsedMs seq nowMs) then 0 else max 5 (elapsedMs seq nowMs),
       if 120 < max 5 (elapsedMs seq nowMs) then true else r) := by
  simp only [dtClamp]
  have h1 : (if elapsedMs seq nowMs < 5 then 5 else elapsedMs seq nowMs)
      = max 5 (elapsedMs seq nowMs) := by
    split <;> omega
  rw [h1]
  by_cases h : 120 < max 5 (elapsedMs seq nowMs)
  · simp [h]
  · simp [h]

/-! ### Helper lemmas about hysteresis and brightness -/

lemma hysteresisStep_zero (st cnt : ℕ) : hysteresisStep st cnt 0 = (st, cnt) := rfl

lemma hysteresisStep_match (st cnt d : ℕ) (h0 : d ≠ 0) (hm : d = st) :
    hysteresisStep st cnt d = (st, 0) := by
  subst hm
  simp [hysteresisStep, h0]

lemma hysteresisStep_differ_lt (st cnt d : ℕ) (h0 : d ≠ 0) (hm : d ≠ st)
    (hc : cnt < 2) : hysteresisStep st cnt d = (st, cnt + 1) := by
  have hmod : (cnt + 1) % 256 = cnt + 1 := Nat.mod_eq_of_lt (by omega)
  simp [hysteresisStep, h0, hm, hmod]
  omega

lemma hysteresisStep_differ_commit (st cnt d : ℕ) (h0 : d ≠ 0) (hm : d ≠ st)
    (hc : cnt = 2) : hysteresisStep st cnt d = (d, 0) := by
  subst hc
  norm_num [hysteresisStep, h0, hm]

lemma brightnessPolicy_idem (nh : Bool) (prev : ℕ) (p q : Packet)
    (hb : q.brightness = p.brightness) (hm : q.mode = p.mode) :
    brightnessPolicy nh (brightnessPolicy nh prev p) q
      = brightnessPolicy nh prev p := by
  simp only [brightnessPolicy, hb, hm]
  split_ifs <;> rfl

lemma clampQ_mem (v hi : ℚ) (hhi : 0 ≤ hi) :
    0 ≤ clampQ v 0 hi ∧ clampQ v 0 hi ≤ hi :=
  ⟨le_min hhi (le_max_left _ _), min_le_left _ _⟩

/-- Safety invariant of the Target State: every clamped field is below its
configured cap (config.h: `MAX_R/G/B`, `BRIGHTNESS_CAP`, `MOTION_SPEED_CAP`). -/
def targetInv (t : TargetState) : Prop :=
  t.r ≤ MAX_R ∧ t.g ≤ MAX_G ∧ t.b ≤ MAX_B ∧
  t.brightness ≤ BRIGHTNESS_CAP ∧ t.motion_speed ≤ MOTION_SPEED_CAP

instance (t : TargetState) : Decidable (targetInv t) := by
  unfold targetInv
  infer_instance

/-- The first-command packet of the end-to-end scenario in the spec
(mode 2, r 200, g 100, b 50, brightness 180, energy 90, speed 50,
direction 200, frame 1), reused as a concrete input by several witnesses. -/
def samplePacket : Packet := ⟨2, 200, 100, 50, 180, 90, 50, 200, 1⟩

/-! ### Claims -/

/-- Claim C4: for every applied command the elapsed time since the last
accepted command is clamped into the band [5 ms, 120 ms] before use; an
elapsed time above 120 ms additionally requests a phase reset and forces the
effective delta of that step to zero; on the very first command (no command
accepted yet) a default interval of 40 ms is assumed instead of a measured
elapsed time. -/
theorem C4_interval_clamp (seq : SeqState) (nowMs : ℕ) (r : Bool) :
    (seq.haveFrame = false →
      elapsedMs seq nowMs = 40 ∧ dtClamp seq nowMs r false = (40, r))
  ∧ (seq.haveFrame = true → elapsedMs seq nowMs ≤ 120 →
      dtClamp seq nowMs r false = (max 5 (elapsedMs seq nowMs), r)
      ∧ 5 ≤ max 5 (elapsedMs seq nowMs) ∧ max 5 (elapsedMs seq nowMs) ≤ 120)
  ∧ (seq.haveFrame = true → 120 < elapsedMs seq nowMs →
      dtClamp seq nowMs r false = (0, true)) := by
  refine ⟨?_, ?_, ?_⟩
  · intro h
    have he : elapsedMs seq nowMs = 40 := by simp [elapsedMs, h]
    refine ⟨he, ?_⟩
    rw [dtClamp_eq, he]
    norm_num
  · intro _ hle
    have hm : ¬ 120 < max 5 (elapsedMs seq nowMs) := by omega
    refine ⟨?_, le_max_left _ _, by omega⟩
    rw [dtClamp_eq, if_neg hm, if_neg hm]
  · intro _ hgt
    have hm : 120 < max 5 (elapsedMs seq nowMs) := by omega
    rw [dtClamp_eq, if_pos hm, if_pos hm]

/-- Witness for C4 at a concrete stale interval: the last command arrived at
0 ms, the new one at 1000 ms, so the effective delta is 0 and a phase reset
is requested. -/
theorem C4_interval_clamp_witness :
    dtClamp ⟨true, 0, 0, 128, 0⟩ 1000 false false = (0, true) :=
  (C4_interval_clamp ⟨true, 0, 0, 128, 0⟩ 1000 false).2.2 rfl (by decide)

/-- Claim C5: the phase integrator `advanceRenderPhase(dt_wall, dt_cmd)` is
a no-op when `dt_wall ≤ 0`; otherwise it clamps `dt_cmd` into
[0.01 s, 0.12 s], derives a direction scalar from the stabilized
motion_direction (0 for the sentinel 0 and for the neutral band 96..160,
−1 below 96, +1 above 160), a speed scalar `motion_speed / 100`, and adds
exactly `speed · direction · (dt_wall / clamped_interval)` to render_phase,
leaving the Target State and the other Render State fields unchanged. -/
theorem C5_phase_integrator (s : GlobalState) (dt p : ℚ) :
    (dt ≤ 0 → advanceRenderPhase s dt p = s)
  ∧ (0 < dt →
      (advanceRenderPhase s dt p).render.render_phase
        = s.render.render_phase +
          (s.target.motion_speed : ℚ) / 100 * dirScalar s.target.motion_direction *
            (dt / clampInterval p)
      ∧ (advanceRenderPhase s dt p).target = s.target
      ∧ (advanceRenderPhase s dt p).render.render_color = s.render.render_color
      ∧ (advanceRenderPhase s dt p).render.render_brightness
          = s.render.render_brightness
      ∧ (advanceRenderPhase s dt p).render.render_motion_energy
          = s.render.render_motion_energy)
  ∧ (1 / 100 ≤ clampInterval p ∧ clampInterval p ≤ 12 / 100)
  ∧ (1 / 100 ≤ p → p ≤ 12 / 100 → clampInterval p = p)
  ∧ dirScalar 0 = 0
  ∧ (∀ d : ℕ, 96 ≤ d → d ≤ 160 → dirScalar d = 0)
  ∧ (∀ d : ℕ, d ≠ 0 → d < 96 → dirScalar d = -1)
  ∧ (∀ d : ℕ, 160 < d → dirScalar d = 1) := by
  refine ⟨?_, ?_, ?_, ?_, rfl, ?_, ?_, ?_⟩
  · intro h
    simp [advanceRenderPhase, h]
  · intro h
    have hh : ¬ dt ≤ 0 := not_le.2 h
    refine ⟨?_, ?_, ?_, ?_, ?_⟩ <;> simp [advanceRenderPhase, hh]
  · constructor <;> (simp only [clampInterval]; split_ifs <;> linarith)
  · intro h1 h2
    simp only [clampInterval]
    rw [if_neg (not_lt.2 h1), if_neg (not_lt.2 h2)]
  · intro d h1 h2
    simp only [dirScalar]
    split_ifs <;> first | rfl | omega
  · intro d h0 hlt
    simp only [dirScalar]
    split_ifs <;> first | rfl | omega
  · intro d hgt
    simp only [dirScalar]
    split_ifs <;> first | rfl | omega

/-- Witness for C5: with a non-positive wall delta the integrator leaves the
whole state unchanged. -/
theorem C5_phase_integrator_witness :
    advanceRenderPhase initState 0 (1 / 25) = initState :=
  (C5_phase_integrator initState 0 (1 / 25)).1 le_rfl

/-- Claim C6: with the zero-is-no-hint policy enabled (the default
configuration), a command with brightness 0 and mode ≠ 5 (off) leaves the
Target State brightness unchanged; in every other case (nonzero brightness,
mode 5, or the policy disabled) the brightness is set to the command value
clamped to `BRIGHTNESS_CAP`. -/
theorem C6_brightness_policy (s : GlobalState) (p : Packet) (nowMs : ℕ) :
    PACKET_BRIGHTNESS_ZERO_IS_NOHINT = true
  ∧ (p.brightness = 0 → p.mode ≠ 5 →
      (updateStateFromPacket s p nowMs).target.brightness = s.target.brightness)
  ∧ ((p.brightness ≠ 0 ∨ p.mode = 5) →
      (updateStateFromPacket s p nowMs).target.brightness
        = min p.brightness BRIGHTNESS_CAP)
  ∧ (∀ prev : ℕ, brightnessPolicy false prev p = min p.brightness BRIGHTNESS_CAP) := by
  refine ⟨rfl, ?_, ?_, fun prev => rfl⟩
  · intro h0 h5
    simp [update_target, brightnessPolicy, PACKET_BRIGHTNESS_ZERO_IS_NOHINT, h0, h5]
  · intro h
    have hcond : ¬ (p.brightness = 0 ∧ p.mode ≠ 5) := by tauto
    simp [update_target, brightnessPolicy, PACKET_BRIGHTNESS_ZERO_IS_NOHINT, hcond]

/-- Witness for C6: a brightness-0 command in mode 1 keeps the previous
brightness (here the fallback value 255). -/
theorem C6_brightness_policy_witness :
    (updateStateFromPacket initState ⟨1, 10, 20, 30, 0, 40, 50, 60, 0⟩ 100).target.brightness
      = initState.target.brightness :=
  (C6_brightness_policy initState ⟨1, 10, 20, 30, 0, 40, 50, 60, 0⟩ 100).2.1 rfl
    (by decide)

/-- Claim C7: after initialization and after every applied command the Target
State satisfies r ≤ MAX_R, g ≤ MAX_G, b ≤ MAX_B, brightness ≤ BRIGHTNESS_CAP
and motion_speed ≤ MOTION_SPEED_CAP, for every possible input command,
regardless of input magnitude. -/
theorem C7_safety_clamp :
    targetInv initState.target
  ∧ ∀ (s : GlobalState) (p : Packet) (nowMs : ℕ),
      targetInv s.target → targetInv (updateStateFromPacket s p nowMs).target := by
  refine ⟨by decide, ?_⟩
  intro s p nowMs hs
  obtain ⟨-, -, -, hb, -⟩ := hs
  simp only [targetInv, update_target, brightnessPolicy]
  refine ⟨min_le_right _ _, min_le_right _ _, min_le_right _ _, ?_, min_le_right _ _⟩
  split_ifs <;> first | exact hb | exact min_le_right _ _

/-- Witness for C7: a command with wildly out-of-range field values still
yields a Target State inside the safety caps. -/
theorem C7_safety_clamp_witness :
    targetInv (updateStateFromPacket initState
      ⟨7, 9999, 9998, 9997, 9996, 9995, 9994, 9993, 9⟩ 0).target :=
  C7_safety_clamp.2 initState ⟨7, 9999, 9998, 9997, 9996, 9995, 9994, 9993, 9⟩ 0
    (by decide)

/-- Claim C8: immediately after every applied command, the Render State color
is the float image of the Target State (r, g, b) and the render brightness is
the float image of the Target State brightness — an exact copy with no
temporal smoothing, for every command and every prior state. -/
theorem C8_render_mirror (s : GlobalState) (p : Packet) (nowMs : ℕ) :
    (updateStateFromPacket s p nowMs).render.render_color =
      ⟨((updateStateFromPacket s p nowMs).target.r : ℚ),
       ((updateStateFromPacket s p nowMs).target.g : ℚ),
       ((updateStateFromPacket s p nowMs).target.b : ℚ)⟩
  ∧ (updateStateFromPacket s p nowMs).render.render_brightness =
      ((updateStateFromPacket s p nowMs).target.brightness : ℚ) :=
  ⟨rfl, rfl⟩

/-- Claim C1 counterexample: the code commits a new stabilized direction
after 3 consecutive differing readings even when those readings are NOT
identical to each other.  Starting from the initial stabilized direction 128,
the readings 32, 224, 50 (pairwise different, all nonzero, all different
from 128) change the stabilized direction to 50, refuting the claim that a
change requires 3 differing readings that are identical to each other. -/
theorem C1_hysteresis_counterexample :
    ((updateStateFromPacket (updateStateFromPacket (updateStateFromPacket initState
          ⟨1, 10, 20, 30, 100, 50, 60, 32, 0⟩ 1000)
          ⟨1, 10, 20, 30, 100, 50, 60, 224, 1⟩ 1040)
          ⟨1, 10, 20, 30, 100, 50, 60, 50, 2⟩ 1080).target.motion_direction = 50)
  ∧ initState.seq.stableDirection = 128
  ∧ initState.target.motion_direction = 128
  ∧ (32 : ℕ) ≠ 224 ∧ (224 : ℕ) ≠ 50 ∧ (32 : ℕ) ≠ 50 := by
  decide

/-- Claim C1 (amended): the stabilized direction changes only after 3
consecutive non-sentinel readings each differing from the currently
stabilized value (they need NOT be identical to each other; the committed
value is the third such reading).  A sentinel-0 reading leaves both the
stabilized direction and the agreement counter unchanged; a reading matching
the stabilized value resets the counter; with the counter at 0, a single
differing reading followed by a reading matching the stabilized value never
changes the stabilized direction.  The Target State motion_direction always
equals the stabilized direction after an update. -/
theorem C1_hysteresis_amended (s : GlobalState) (p q : Packet) (nm nm2 : ℕ) :
    ((updateStateFromPacket s p nm).target.motion_direction
        = (updateStateFromPacket s p nm).seq.stableDirection)
  ∧ (p.motion_direction = 0 →
      (updateStateFromPacket s p nm).seq.stableDirection = s.seq.stableDirection
      ∧ (updateStateFromPacket s p nm).seq.dirStableCount = s.seq.dirStableCount)
  ∧ (p.motion_direction ≠ 0 → p.motion_direction = s.seq.stableDirection →
      (updateStateFromPacket s p nm).seq.stableDirection = s.seq.stableDirection
      ∧ (updateStateFromPacket s p nm).seq.dirStableCount = 0)
  ∧ (p.motion_direction ≠ 0 → p.motion_direction ≠ s.seq.stableDirection →
      s.seq.dirStableCount < 2 →
      (updateStateFromPacket s p nm).seq.stableDirection = s.seq.stableDirection
      ∧ (updateStateFromPacket s p nm).seq.dirStableCount
          = s.seq.dirStableCount + 1)
  ∧ (p.motion_direction ≠ 0 → p.motion_direction ≠ s.seq.stableDirection →
      s.seq.dirStableCount = 2 →
      (updateStateFromPacket s p nm).seq.stableDirection = p.motion_direction
      ∧ (updateStateFromPacket s p nm).seq.dirStableCount = 0)
  ∧ (s.seq.dirStableCount = 0 → p.motion_direction ≠ 0 →
      p.motion_direction ≠ s.seq.stableDirection →
      q.motion_direction = s.seq.stableDirection →
      (updateStateFromPacket (updateStateFromPacket s p nm) q nm2).seq.stableDirection
        = s.seq.stableDirection) := by
  refine ⟨rfl, ?_, ?_, ?_, ?_, ?_⟩
  · intro h0
    simp [update_seq, h0, hysteresisStep_zero]
  · intro h0 hm
    simp [update_seq, hysteresisStep_match _ _ _ h0 hm]
  · intro h0 hm hlt
    simp [update_seq, hysteresisStep_differ_lt _ _ _ h0 hm hlt]
  · intro h0 hm h2
    simp [update_seq, hysteresisStep_differ_commit _ _ _ h0 hm h2]
  · intro hc0 h0 hne hq
    have h1 : hysteresisStep s.seq.stableDirection s.seq.dirStableCount
        p.motion_direction = (s.seq.stableDirection, s.seq.dirStableCount + 1) :=
      hysteresisStep_differ_lt _ _ _ h0 hne (by omega)
    simp only [update_seq, h1]
    by_cases hz : q.motion_direction = 0
    · simp [hz, hysteresisStep_zero]
    · rw [hysteresisStep_match _ _ _ hz (by rw [hq])]

/-- Witness for C1 (amended) at the hysteresis scenario of the spec: from the
initial state (stabilized 128, counter 0), a single differing reading (32)
followed by a reading matching the stabilized value (128) leaves the
stabilized direction at 128. -/
theorem C1_hysteresis_amended_witness :
    (updateStateFromPacket (updateStateFromPacket initState
        ⟨1, 10, 20, 30, 100, 50, 60, 32, 0⟩ 1000)
        ⟨1, 10, 20, 30, 100, 50, 60, 128, 1⟩ 1040).seq.stableDirection = 128 :=
  (C1_hysteresis_amended initState ⟨1, 10, 20, 30, 100, 50, 60, 32, 0⟩
      ⟨1, 10, 20, 30, 100, 50, 60, 128, 1⟩ 1000 1040).2.2.2.2.2
    rfl (by decide) (by decide) rfl

/-- Claim C2 counterexample: the sine-wave renderer multiplies each channel
by `1.12 + 0.18·sin(x + phase)`, not by a modulation of the form
`1 + k·sin(x + phase)`.  At pixel 300 with phase 0 the sine argument is 0;
any sine function vanishes there (the constant-zero stand-in agrees with the
real sine at that argument), so the claimed form yields channel·1 = 100
while the code yields channel·1.12 = 112. -/
theorem C2_sine_mode_counterexample :
    (renderMode1Pixel ⟨⟨100, 100, 100⟩, 180, 0, 0⟩ (fun _ => 0) 300).r = 112
  ∧ clampQ (100 * (1 + 18 / 100 * 0)) 0 (MAX_R : ℚ) = 100
  ∧ (112 : ℚ) ≠ 100 := by
  refine ⟨?_, ?_, by norm_num⟩ <;>
    norm_num [renderMode1Pixel, clampQ, MAX_R, NUM_LEDS]

/-- Claim C2 (amended): for every pixel index and every Render State, the
sine-wave renderer (mode 1) sets pixel `i`'s each channel to the render
color channel multiplied by `1.12 + 0.18·sin((i − N/2)/80 + phase)`, clamped
to `[0, channel safety maximum]`; the output brightness is the render
brightness itself (no gain, no floor) whenever it lies in [0, 255]. -/
theorem C2_sine_mode_amended (rs : RenderState) (sinf : ℚ → ℚ) (i : ℕ)
    (hb0 : 0 ≤ rs.render_brightness) (hb1 : rs.render_brightness ≤ 255) :
    ((renderMode1Pixel rs sinf i).r
        = clampQ (rs.render_color.r *
            (112 / 100 + 18 / 100 * sinf (((i : ℚ) - 300) / 80 + rs.render_phase)))
            0 (MAX_R : ℚ))
  ∧ ((renderMode1Pixel rs sinf i).g
        = clampQ (rs.render_color.g *
            (112 / 100 + 18 / 100 * sinf (((i : ℚ) - 300) / 80 + rs.render_phase)))
            0 (MAX_G : ℚ))
  ∧ ((renderMode1Pixel rs sinf i).b
        = clampQ (rs.render_color.b *
            (112 / 100 + 18 / 100 * sinf (((i : ℚ) - 300) / 80 + rs.render_phase)))
            0 (MAX_B : ℚ))
  ∧ (0 ≤ (renderMode1Pixel rs sinf i).r ∧ (renderMode1Pixel rs sinf i).r ≤ (MAX_R : ℚ))
  ∧ (0 ≤ (renderMode1Pixel rs sinf i).g ∧ (renderMode1Pixel rs sinf i).g ≤ (MAX_G : ℚ))
  ∧ (0 ≤ (renderMode1Pixel rs sinf i).b ∧ (renderMode1Pixel rs sinf i).b ≤ (MAX_B : ℚ))
  ∧ renderMode1Brightness rs = rs.render_brightness := by
  have h300 : ((NUM_LEDS / 2 : ℕ) : ℚ) = 300 := by norm_num [NUM_LEDS]
  refine ⟨?_, ?_, ?_, ?_, ?_, ?_, ?_⟩
  · simp [renderMode1Pixel, h300]
  · simp [renderMode1Pixel, h300]
  · simp [renderMode1Pixel, h300]
  · exact clampQ_mem _ _ (by norm_num [MAX_R])
  · exact clampQ_mem _ _ (by norm_num [MAX_G])
  · exact clampQ_mem _ _ (by norm_num [MAX_B])
  · show min 255 (max 0 rs.render_brightness) = rs.render_brightness
    rw [max_eq_right hb0, min_eq_right hb1]

/-- Witness for C2 (amended): at render brightness 42 the mode-1 output
brightness is exactly 42. -/
theorem C2_sine_mode_amended_witness :
    renderMode1Brightness ⟨⟨10, 20, 30⟩, 42, 0, 0⟩ = 42 :=
  (C2_sine_mode_amended ⟨⟨10, 20, 30⟩, 42, 0, 0⟩ (fun _ => 0) 0
      (by norm_num) (by norm_num)).2.2.2.2.2.2

/-- Claim C3: after accepting frames 5 and 6, applying a command with
frame_id 12 (gap 6 > threshold 5) marks both the phase reset and the
phase-advance skip, and render_phase is exactly 0 after that update; the
skip forces the effective delta of the step to zero; in general, a frame_id
different from previous+1 (mod 256) requests a phase reset, and a gap
greater than 5 additionally requests the skip. -/
theorem C3_frame_gap (s0 : GlobalState) (p5 p6 p12 : Packet) (t5 t6 t12 : ℕ)
    (_h5 : p5.frame_id = 5) (h6 : p6.frame_id = 6) (h12 : p12.frame_id = 12) :
    (frameSeqFlags (updateStateFromPacket (updateStateFromPacket s0 p5 t5) p6 t6).seq
        p12.frame_id = (true, true))
  ∧ ((updateStateFromPacket (updateStateFromPacket (updateStateFromPacket s0 p5 t5)
        p6 t6) p12 t12).render.render_phase = 0)
  ∧ (∀ (seq : SeqState) (nowMs : ℕ) (r : Bool), (dtClamp seq nowMs r true).1 = 0)
  ∧ (∀ (s : GlobalState) (fid : ℕ), s.seq.haveFrame = true →
      fid ≠ (s.seq.lastFrameId + 1) % 256 → (frameSeqFlags s.seq fid).1 = true)
  ∧ (∀ (s : GlobalState) (fid : ℕ), s.seq.haveFrame = true →
      fid ≠ (s.seq.lastFrameId + 1) % 256 →
      5 < (fid + 256 - s.seq.lastFrameId) % 256 →
      (frameSeqFlags s.seq fid).2 = true) := by
  have hfl : frameSeqFlags
      (updateStateFromPacket (updateStateFromPacket s0 p5 t5) p6 t6).seq
      p12.frame_id = (true, true) := by
    simp [frameSeqFlags, update_seq, h6, h12]
  refine ⟨hfl, ?_, fun seq nowMs r => dtClamp_skip_fst seq nowMs r, ?_, ?_⟩
  · rw [update_render_phase, hfl]
    simp [dtClamp_reset_snd]
  · intro s fid hh hne
    simp [frameSeqFlags, hh, hne]
  · intro s fid hh hne hgap
    simp [frameSeqFlags, hh, hne, hgap]

/-- Witness for C3 at the concrete frame_id sequence 5, 6, 12 of the spec:
render_phase is exactly 0 after the frame-12 update. -/
theorem C3_frame_gap_witness :
    (updateStateFromPacket (updateStateFromPacket (updateStateFromPacket initState
        ⟨1, 10, 20, 30, 100, 50, 60, 130, 5⟩ 1000)
        ⟨1, 10, 20, 30, 100, 50, 60, 130, 6⟩ 1040)
        ⟨1, 10, 20, 30, 100, 50, 60, 130, 12⟩ 1080).render.render_phase = 0 :=
  (C3_frame_gap initState ⟨1, 10, 20, 30, 100, 50, 60, 130, 5⟩
      ⟨1, 10, 20, 30, 100, 50, 60, 130, 6⟩ ⟨1, 10, 20, 30, 100, 50, 60, 130, 12⟩
      1000 1040 1080 rfl rfl rfl).2.1

/-- Claim C9: applying a command `c` at time `t1` and then the same command
with frame_id incremented by one at time `t2`, with `t2 − t1` in the normal
band [5 ms, 120 ms], yields identical Render State color and brightness
after the first and after the second application, and the render_phase
after the second application is at least the one after the first. -/
theorem C9_idempotent_reapply (s : GlobalState) (c : Packet) (t1 t2 : ℕ)
    (hle : t1 ≤ t2) (h5 : 5 ≤ t2 - t1) (h120 : t2 - t1 ≤ 120) (ht : t2 < 2 ^ 32) :
    ((updateStateFromPacket (updateStateFromPacket s c t1)
        { c with frame_id := (c.frame_id + 1) % 256 } t2).render.render_color
      = (updateStateFromPacket s c t1).render.render_color)
  ∧ ((updateStateFromPacket (updateStateFromPacket s c t1)
        { c with frame_id := (c.frame_id + 1) % 256 } t2).render.render_brightness
      = (updateStateFromPacket s c t1).render.render_brightness)
  ∧ ((updateStateFromPacket s c t1).render.render_phase
      ≤ (updateStateFromPacket (updateStateFromPacket s c t1)
          { c with frame_id := (c.frame_id + 1) % 256 } t2).render.render_phase) := by
  set s1 := updateStateFromPacket s c t1 with hs1
  set c2 : Packet := { c with frame_id := (c.frame_id + 1) % 256 } with hc2
  have hflags : frameSeqFlags s1.seq c2.frame_id = (false, false) := by
    simp [frameSeqFlags, hs1, update_seq, hc2]
  have helapsed : elapsedMs s1.seq t2 = t2 - t1 := by
    simp [hs1, update_seq, elapsedMs]
    omega
  have hmax : max 5 (t2 - t1) = t2 - t1 := by omega
  have hdt : dtClamp s1.seq t2 false false = (t2 - t1, false) := by
    rw [dtClamp_eq, helapsed, hmax, if_neg (by omega), if_neg (by omega)]
  have hphase : (updateStateFromPacket s1 c2 t2).render.render_phase
      = s1.render.render_phase := by
    rw [update_render_phase, hflags]
    simp [hdt]
  have hbr : (updateStateFromPacket s1 c2 t2).render.render_brightness
      = s1.render.render_brightness := by
    rw [update_render_brightness, hs1, update_render_brightness]
    exact congrArg (fun n : ℕ => (n : ℚ))
      (brightnessPolicy_idem _ s.target.brightness c c2 rfl rfl)
  exact ⟨rfl, hbr, le_of_eq hphase.symm⟩

/-- Witness for C9 at the spec's end-to-end command (mode 2, r 200, g 100,
b 50, brightness 180) applied at 1000 ms and re-applied at 1040 ms with
frame_id incremented. -/
theorem C9_idempotent_reapply_witness :
    ((updateStateFromPacket (updateStateFromPacket initState samplePacket 1000)
        { samplePacket with frame_id := (samplePacket.frame_id + 1) % 256 }
        1040).render.render_color
      = (updateStateFromPacket initState samplePacket 1000).render.render_color)
  ∧ ((updateStateFromPacket (updateStateFromPacket initState samplePacket 1000)
        { samplePacket with frame_id := (samplePacket.frame_id + 1) % 256 }
        1040).render.render_brightness
      = (updateStateFromPacket initState samplePacket 1000).render.render_brightness)
  ∧ ((updateStateFromPacket initState samplePacket 1000).render.render_phase
      ≤ (updateStateFromPacket (updateStateFromPacket initState samplePacket 1000)
          { samplePacket with frame_id := (samplePacket.frame_id + 1) % 256 }
          1040).render.render_phase) :=
  C9_idempotent_reapply initState samplePacket 1000 1040 (by decide) (by decide)
    (by decide) (by decide)

/-- Claim C10: render_motion_energy always lies in [0, 255]: it is 0 after
initialization; the per-command exponential smoothing with blend factor
`min(1, dt/10 ms)` followed by the snap-to-1 floor maps a value in [0, 255]
to a value in [0, 255] whenever the target motion_energy is an 8-bit value;
and the snap-to-target helper does so as well. -/
theorem C10_motion_energy_bounds :
    initState.render.render_motion_energy = 0
  ∧ (∀ (s : GlobalState) (p : Packet) (nowMs : ℕ),
      0 ≤ s.render.render_motion_energy → s.render.render_motion_energy ≤ 255 →
      p.motion_energy ≤ 255 →
      0 ≤ (updateStateFromPacket s p nowMs).render.render_motion_energy ∧
      (updateStateFromPacket s p nowMs).render.render_motion_energy ≤ 255)
  ∧ (∀ (s : GlobalState) (r : Bool), s.target.motion_energy ≤ 255 →
      0 ≤ (snapRenderStateToTarget s r).render.render_motion_energy ∧
      (snapRenderStateToTarget s r).render.render_motion_energy ≤ 255) := by
  refine ⟨rfl, ?_, ?_⟩
  · intro s p nowMs he0 he255 hp
    rw [update_render_motion_energy]
    set a : ℚ := min 1
      (((dtClamp s.seq nowMs (frameSeqFlags s.seq p.frame_id).1
          (frameSeqFlags s.seq p.frame_id).2).1 : ℚ) / 10) with ha
    have ha0 : 0 ≤ a := le_min (by norm_num) (by positivity)
    have ha1 : a ≤ 1 := min_le_left _ _
    have ht0 : (0 : ℚ) ≤ (p.motion_energy : ℚ) := by positivity
    have ht255 : (p.motion_energy : ℚ) ≤ 255 := by exact_mod_cast hp
    constructor <;> split_ifs
    · norm_num
    · nlinarith [mul_nonneg ha0 ht0,
        mul_nonneg (sub_nonneg.mpr ha1) he0]
    · norm_num
    · nlinarith [mul_nonneg (sub_nonneg.mpr ha1) (sub_nonneg.mpr he255),
        mul_nonneg ha0 (sub_nonneg.mpr ht255)]
  · intro s r h
    constructor
    · show (0 : ℚ) ≤ (s.target.motion_energy : ℚ)
      positivity
    · show (s.target.motion_energy : ℚ) ≤ 255
      exact_mod_cast h

/-- Witness for C10: the smoothing step applied to the initial state and the
spec's sample command keeps render_motion_energy inside [0, 255]. -/
theorem C10_motion_energy_bounds_witness :
    0 ≤ (updateStateFromPacket initState samplePacket 1000).render.render_motion_energy
  ∧ (updateStateFromPacket initState samplePacket 1000).render.render_motion_energy
      ≤ 255 :=
  C10_motion_energy_bounds.2.1 initState samplePacket 1000 (by decide) (by decide)
    (by decide)

end Ambient
